import Mathlib

/-!
Verification of the Thrryv content scoring and discovery ranking engine.

This file gives a shallow embedding, in Lean 4, of the pure scoring
algorithms of the backend:

* `backend/ai_reputation_evaluator.py` — reputation boost from axis scores;
* `backend/server.py` (`calculate_post_score`) — evidence-gated post score;
* `backend/originality_detection.py` — similarity and novelty analysis
  (deterministic fallback path, no external LLM);
* `backend/user_standing.py` — engagement metric, tier, next-tier reqs;
* `backend/content_discovery.py` — intent fallback, per-item signals,
  composite scores and the ranking pipeline.

Real numbers in the Python source are modelled as rationals (`ℚ`); the
Python arithmetic involved is exact on the inputs considered, so the
rational model is faithful.  Python's `list.sort(key=..., reverse=True)`
is a stable descending sort; it is modelled by the insertion sort
`sortDesc`, proved below to be a descending, permutation, stable sort,
which characterises it extensionally.
-/

namespace Thrryv

/-! ### Stable descending sort (model of Python `list.sort(key, reverse=True)`) -/

/-- Insert `x` into `l` before the first element whose key is `≤ key x`.
Elements with strictly larger keys stay in front, so equal keys keep the
original relative order (stability). -/
def insertDesc (key : α → ℚ) (x : α) : List α → List α
  | [] => [x]
  | y :: ys => if key y ≤ key x then x :: y :: ys else y :: insertDesc key x ys

/-- Stable descending insertion sort by a rational key. -/
def sortDesc (key : α → ℚ) : List α → List α
  | [] => []
  | x :: xs => insertDesc key x (sortDesc key xs)

/-! ### Signal Evaluator (`backend/ai_reputation_evaluator.py`, `evaluate_post`)

Constants from the source: `MIN_BOOST = 5.0`, `MAX_BOOST = 15.0`,
`BOOST_THRESHOLD = 50.0`. -/

def MIN_BOOST : ℚ := 5
def MAX_BOOST : ℚ := 15
def BOOST_THRESHOLD : ℚ := 50

/-- `avg_score` of `evaluate_post`: mean of the five axis scores, plus the
media axis at the same weight when a media score is present
(lines 260-266 of `ai_reputation_evaluator.py`). -/
def avgScore (clarity originality relevance effort evidentiary : ℚ)
    (media : Option ℚ) : ℚ :=
  match media with
  | some m => (clarity + originality + relevance + effort + evidentiary + m) / 6
  | none => (clarity + originality + relevance + effort + evidentiary) / 5

/-- Reputation boost as a function of `avg_score`
(lines 268-280 of `ai_reputation_evaluator.py`).  The stored value is
additionally displayed with `round(_, 2)`; the rounding is presentational
and is not part of the scoring relation modelled here. -/
def reputationBoost (avg : ℚ) : ℚ :=
  if BOOST_THRESHOLD ≤ avg then
    let score_range := 100 - BOOST_THRESHOLD
    let boost_range := MAX_BOOST - MIN_BOOST
    let normalized := (avg - BOOST_THRESHOLD) / score_range
    min (max (MIN_BOOST + normalized * boost_range) MIN_BOOST) MAX_BOOST
  else 0

/-- Boost computed by `evaluate_post` from the five axis scores and the
optional media score. -/
def evaluatePostBoost (clarity originality relevance effort evidentiary : ℚ)
    (media : Option ℚ) : ℚ :=
  reputationBoost (avgScore clarity originality relevance effort evidentiary media)

/-! ### Post-Score Aggregator (`backend/server.py`, `calculate_post_score`) -/

/-- Stance of an annotation (`annotation_type` in the source). -/
inductive Stance
  | support
  | contradict
  | context
deriving DecidableEq, Repr

/-- An annotation as consumed by `calculate_post_score`.  `author_rep` is the
enriched author reputation (taken from the nested `author` document's
`reputation_score`, or the `author_reputation` key, default `10.0`);
`classification_confidence` defaults to `0.5` in the source when absent. -/
structure Annot where
  author_id : Option String
  helpful_votes : ℕ
  not_helpful_votes : ℕ
  author_rep : ℚ
  classification_confidence : ℚ
  ann_type : Stance
deriving DecidableEq, Repr

/-- Python truthiness of the optional `claim_author_id` string
(`if claim_author_id and ...`, line 327 of `server.py`): `None` and the
empty string are falsy. -/
def optStrTruthy : Option String → Bool
  | none => false
  | some s => s != ""

/-- The self-annotation skip test of the aggregation loop (line 327):
`if claim_author_id and ann.get('author_id') == claim_author_id: continue`. -/
def skipAnn (cid : Option String) (a : Annot ) : Bool :=
  optStrTruthy cid && (a.author_id == cid)

/-- `rep_factor = min(2.0, max(0.6, author_rep / 10.0))` (line 341). -/
def repFactor (a : Annot ) : ℚ := min 2 (max 0.6 (a.author_rep / 10))

/-- `confidence_factor = 0.6 + 0.4 * min(1.0, max(0.0, confidence))` (line 343). -/
def confidenceFactor (a : Annot ) : ℚ :=
  0.6 + 0.4 * min 1 (max 0 a.classification_confidence)

/-- Per-annotation weight (line 345). -/
def annWeight (a : Annot ) : ℚ :=
  max 0.2 ((1 + (a.helpful_votes : ℚ) * 0.2 - (a.not_helpful_votes : ℚ) * 0.1)
    * repFactor a * confidenceFactor a)

/-- Evidence gate (line 349): `helpful_votes >= 2 or author_rep >= 15 or
confidence >= 0.7`. -/
def hasEvidence (a : Annot ) : Bool :=
  decide (2 ≤ a.helpful_votes) || decide ((15 : ℚ) ≤ a.author_rep)
    || decide ((0.7 : ℚ) ≤ a.classification_confidence)

/-- Amount an annotation adds to its stance accumulator (lines 350-353):
full weight when gated in, a quarter of the weight otherwise. -/
def stanceContribution (a : Annot ) : ℚ :=
  if hasEvidence a then annWeight a else annWeight a * 0.25

/-- Accumulator state of the aggregation loop of `calculate_post_score`. -/
structure AggState where
  valid_count : ℕ
  helpful_total : ℕ
  support_weight : ℚ
  contradict_weight : ℚ
deriving DecidableEq, Repr

def aggInit : AggState := ⟨0, 0, 0, 0⟩

/-- One iteration of the aggregation loop (lines 325-353). -/
def aggStep (cid : Option String) (s : AggState) (a : Annot ) : AggState :=
  if skipAnn cid a then s
  else
    let s' : AggState :=
      { s with valid_count := s.valid_count + 1,
               helpful_total := s.helpful_total + a.helpful_votes }
    match a.ann_type with
    | .support => { s' with support_weight := s'.support_weight + stanceContribution a }
    | .contradict => { s' with contradict_weight := s'.contradict_weight + stanceContribution a }
    | .context => s'

def aggregate (cid : Option String) (anns : List Annot ) : AggState :=
  anns.foldl (aggStep cid) aggInit

/-- Baseline contribution (lines 306-315): mean of the five baseline axis
scores, rescaled from 0-100 to 0-10; `0.0` when no baseline evaluation. -/
def baseScore : Option (ℚ × ℚ × ℚ × ℚ × ℚ) → ℚ
  | none => 0
  | some (c, o, r, e, v) => ((c + o + r + e + v) / 5) / 10

/-- `calculate_post_score` (lines 294-362 of `server.py`). -/
def calculatePostScore (anns : List Annot ) (baseline : Option (ℚ × ℚ × ℚ × ℚ × ℚ))
    (cid : Option String) : ℚ :=
  let st := aggregate cid anns
  let engagement_score := min 5 ((st.valid_count : ℚ) * 0.3 + (st.helpful_total : ℚ) * 0.15)
  let stance_adjust := max (-5) (min 5 ((st.support_weight - st.contradict_weight) * 0.4))
  max 0 (baseScore baseline + engagement_score + stance_adjust)

/-! ### Originality Detector (`backend/originality_detection.py`)

The deterministic path is modelled: with no API key configured, semantic
similarity uses `_calculate_semantic_similarity_fallback`. -/

/-- Python `str.lower()` (character-wise lowercasing). -/
def lowerStr (s : String) : String := String.mk (s.toList.map Char.toLower)

/-- Accumulator loop for `pySplitWs`: split on whitespace runs, dropping
empty pieces, collecting the current word reversed in `cur`. -/
def wordsAux : List Char → List Char → List String
  | [], cur => if cur.isEmpty then [] else [String.mk cur.reverse]
  | c :: rest, cur =>
    if c.isWhitespace then
      (if cur.isEmpty then wordsAux rest [] else String.mk cur.reverse :: wordsAux rest [])
    else wordsAux rest (c :: cur)

/-- Python `str.split()` with no argument: split on whitespace runs,
no empty pieces. -/
def pySplitWs (s : String) : List String := wordsAux s.toList []

/-- Python `string.punctuation` (the 32 ASCII punctuation characters),
removed by `_tokenize` via `str.translate`.  The apostrophe is written as
`Char.ofNat 39`. -/
def pyPunct : List Char :=
  "!\"#$%&()*+,-./:;<=>?@[\\]^_`\x7b|\x7d~".toList ++ [Char.ofNat 39]

/-- `_tokenize` (lines 340-356): lowercase, strip punctuation, split on
whitespace. -/
def tokenize (s : String) : List String :=
  pySplitWs (String.mk ((lowerStr s).toList.filter (fun ch => !pyPunct.contains ch)))

/-- Token set: Python `set(self._tokenize(text))`, as a duplicate-free list. -/
def tokenSet (s : String) : List String := (tokenize s).dedup

/-- The `common_words` stop-word set of
`_calculate_semantic_similarity_fallback` (lines 235-240). -/
def stopWords : List String :=
  ["the", "a", "an", "and", "or", "but", "is", "are", "was", "were",
   "be", "been", "being", "that", "this", "it", "to", "for", "of", "in",
   "on", "at", "by", "with", "from", "as", "about", "into", "through",
   "during", "can", "could", "would", "should", "may", "might", "must"]

/-- `_calculate_semantic_similarity_fallback` (lines 222-252): keyword
overlap over stop-word-filtered token sets, `|intersection| / max(|A|,|B|)`;
`0.0` whenever either keyword set is empty (before or after stop-word
removal). -/
def semanticFallback (t1 t2 : String) : ℚ :=
  let kw1 := tokenSet t1
  let kw2 := tokenSet t2
  if kw1.isEmpty || kw2.isEmpty then 0
  else
    let k1 := kw1.filter (fun w => !stopWords.contains w)
    let k2 := kw2.filter (fun w => !stopWords.contains w)
    if k1.isEmpty || k2.isEmpty then 0
    else
      let overlap := (k1.filter (fun w => k2.contains w)).length
      (overlap : ℚ) / (max k1.length k2.length : ℕ)

/-- `_calculate_similarity` (lines 146-175), with the fallback semantic
path: Jaccard token similarity combined 60/40 with semantic similarity,
clamped to `[0, 1]`; `0.0` when either token set is empty. -/
def calcSimilarity (t1 t2 : String) : ℚ :=
  let s1 := tokenSet t1
  let s2 := tokenSet t2
  if s1.isEmpty || s2.isEmpty then 0
  else
    let inter := (s1.filter (fun w => s2.contains w)).length
    let uni := (s1 ++ s2.filter (fun w => !s1.contains w)).length
    let token_similarity : ℚ := if 0 < uni then (inter : ℚ) / uni else 0
    let semantic_similarity := semanticFallback t1 t2
    min 1 (max 0 (semantic_similarity * 0.6 + token_similarity * 0.4))

def moderate_similarity : ℚ := 0.55
def similarity_threshold : ℚ := 0.75

/-- An existing claim from the corpus, with the fields read by
`_find_similar_content`. -/
structure ExClaim where
  id : String
  author_id : String
  text : String
  created_at : String
  ann_count : ℕ
deriving DecidableEq, Repr

/-- A similarity match record built by `_find_similar_content`
(lines 132-139); `annotation_count` is modelled as `ann_count`. -/
structure SimMatch where
  claim_id : String
  author_id : String
  text_preview : String
  similarity : ℚ
  created_at : String
  ann_count : ℕ
deriving DecidableEq, Repr

def mkMatch (t : String) (c : ExClaim) : SimMatch :=
  { claim_id := c.id, author_id := c.author_id, text_preview := c.text.take 150,
    similarity := calcSimilarity t c.text, created_at := c.created_at,
    ann_count := c.ann_count }

/-- `_find_similar_content` (lines 112-144): keep the corpus items with
combined similarity `≥ 0.55`, then sort by similarity descending (Python's
stable sort). -/
def findSimilarContent (t : String) (existing : List ExClaim ) : List SimMatch :=
  sortDesc (fun m => m.similarity)
    ((existing.filter (fun c => moderate_similarity ≤ calcSimilarity t c.text)).map (mkMatch t))

/-- `_calculate_originality_score` (lines 254-273): `100` with no sim_matches,
else `100 − highest_similarity × 100` clamped to `[0, 100]` (the list is
sorted, so the highest similarity is the head). -/
def calcOriginalityScore : List SimMatch → ℚ
  | [] => 100
  | m :: _ => max 0 (min 100 (100 - m.similarity * 100))

/-- `_determine_novelty_level` (lines 275-300). -/
def determineNoveltyLevel (originality_score : ℚ) (sim_matches : List SimMatch ) : String :=
  let has_duplicate := sim_matches.any (fun m => similarity_threshold < m.similarity)
  if has_duplicate then "duplicate"
  else
    let has_high := sim_matches.any (fun m => (0.70 : ℚ) < m.similarity)
    if 85 ≤ originality_score then "highly_original"
    else if 70 ≤ originality_score ∧ has_high = false then "original"
    else if 50 ≤ originality_score ∧ has_high = false then "semi_original"
    else if has_high then "derivative"
    else "original"

/-- The originality analysis (the `analysis_timestamp` field of the source
is a wall-clock string and is omitted). -/
structure OrigAnalysis where
  claim_id : String
  originality_score : ℚ
  novelty_level : String
  similarity_matches : List SimMatch
  is_flagged_for_manual_review : Bool
  boost_eligible : Bool
deriving DecidableEq, Repr

/-- `analyze_originality` (lines 56-110). -/
def analyzeOriginality (claim : ExClaim ) (existing : List ExClaim ) : OrigAnalysis :=
  let sim_matches := findSimilarContent claim.text existing
  let score := calcOriginalityScore sim_matches
  let novelty := determineNoveltyLevel score sim_matches
  { claim_id := claim.id,
    originality_score := score,
    novelty_level := novelty,
    similarity_matches := sim_matches.take 5,
    is_flagged_for_manual_review :=
      decide (score < 30) || sim_matches.any (fun m => similarity_threshold < m.similarity),
    boost_eligible :=
      decide (75 ≤ score) && (novelty == "highly_original" || novelty == "original") }

/-! ### User Standing System (`backend/user_standing.py`) -/

/-- `_evaluate_engagement_consistency` (lines 187-235). -/
def evaluateEngagementConsistency (claims_posted annos_added : ℕ) : ℚ :=
  let total_contributions := claims_posted + annos_added
  if total_contributions = 0 then 30
  else
    let score : ℚ :=
      if 50 ≤ total_contributions then 40
      else if 20 ≤ total_contributions then 30
      else if 10 ≤ total_contributions then 20
      else if 5 ≤ total_contributions then 15
      else 5
    let score := score +
      (if 0 < claims_posted ∧ 0 < annos_added then 30
       else if 0 < annos_added then 15 else 0)
    let score := score +
      (if 0 < claims_posted ∧ 0 < annos_added then
        ((min claims_posted annos_added : ℕ) : ℚ) / ((max claims_posted annos_added : ℕ) : ℚ) * 20
       else 0)
    min 100 score

/-- Standing tiers. -/
inductive Tier
  | emerging
  | consistent
  | established
  | expert
  | trusted
deriving DecidableEq, Repr

/-- `_determine_tier` (lines 332-359), with the account age in days as an
explicit argument. -/
def determineTier (age_days : ℤ) (score : ℚ) : Tier :=
  if age_days < 7 then .emerging
  else if 85 ≤ score then (if 365 ≤ age_days then .trusted else .expert)
  else if 70 ≤ score then .established
  else if 50 ≤ score then .consistent
  else .emerging

/-- `overall_score` of `calculate_standing` (lines 114-153): sum of the
five metric contributions with the fixed weights of `metric_weights`. -/
def overallScore (content_quality engagement originality feedback tenure : ℚ) : ℚ :=
  content_quality * 0.35 + engagement * 0.25 + originality * 0.15
    + feedback * 0.15 + tenure * 0.10

/-- The tier computed by `calculate_standing` from the five metric values
and the account age. -/
def standingTier (age_days : ℤ) (content_quality engagement originality feedback tenure : ℚ) : Tier :=
  determineTier age_days (overallScore content_quality engagement originality feedback tenure)

/-- Name and current value of a standing metric (the fields of
`StandingMetric` read by `_get_next_tier_requirements`). -/
structure MetricV where
  name : String
  value : ℚ
deriving DecidableEq, Repr

/-- The next-tier requirement record (lines 425-431). -/
structure NextReqs where
  next_tier : Tier
  score_needed : ℚ
  current_score : ℚ
  focus_areas : List String
  estimate_weeks : ℤ
deriving DecidableEq, Repr

/-- The `tier_thresholds` dictionary (lines 392-398); `trusted` maps to
Python `None`. -/
def tierThresholds : Tier → Option ℚ
  | .emerging => some 50
  | .consistent => some 70
  | .established => some 80
  | .expert => some 90
  | .trusted => none

/-- Successor in `tier_order` (lines 400-406). -/
def nextTierOf : Tier → Option Tier
  | .emerging => some .consistent
  | .consistent => some .established
  | .established => some .expert
  | .expert => some .trusted
  | .trusted => none

/-- `_get_next_tier_requirements` (lines 380-431).  When the looked-up
threshold is Python `None` (current tier `expert`, next tier `trusted`),
the source evaluates `None - current_score` and raises `TypeError`;
this is modelled as `Except.error ()`.  Python `int()` on a positive
float truncates, i.e. is the floor. -/
def getNextTierRequirements (current_tier : Tier) (current_score : ℚ)
    (metrics : List MetricV ) : Except Unit (Option NextReqs ) :=
  if current_tier = .trusted then .ok none
  else
    match nextTierOf current_tier with
    | none => .ok none
    | some nt =>
      match tierThresholds nt with
      | none => .error ()
      | some threshold =>
        let gap := threshold - current_score
        let weak_metrics := metrics.filter (fun m => m.value < 70)
        .ok (some
          { next_tier := nt,
            score_needed := max 0 gap,
            current_score := current_score,
            focus_areas := weak_metrics.map (fun m => m.name),
            estimate_weeks := if 0 < gap then max 1 ⌊gap / 10⌋ else 0 })

/-! ### Discovery Ranking Engine (`backend/content_discovery.py`)

The deterministic path is modelled: with no API key the intent parser is
`_analyze_user_intent_fallback`.  Ages are modelled as the already-computed
`age_hours` value (`None` when `created_at` is absent or unparsable). -/

/-- Python substring test `needle in hay` over character lists. -/
def charsInfix (needle : List Char) : List Char → Bool
  | [] => needle.isEmpty
  | c :: t => needle.isPrefixOf (c :: t) || charsInfix needle t

/-- Python `needle in hay` for strings. -/
def strContains (hay needle : String) : Bool := charsInfix needle.toList hay.toList

/-- Parsed user intent (the `query_analysis` explanation string is
presentational and omitted). -/
structure IntentData where
  core_topic : String
  time_preference : String
  perspective_preference : List String
  depth_preference : String
  related_domains : List String
  key_entities : List String
  keywords : List String
deriving DecidableEq, Repr

/-- `_analyze_user_intent_fallback` (lines 210-252). -/
def analyzeUserIntentFallback (query : String) : IntentData :=
  let ql := lowerStr query
  let time_pref :=
    if ["recent", "lately", "today", "this week", "new"].any (fun w => strContains ql w) then "recent"
    else if ["historical", "history", "past", "old", "ancient", "during"].any (fun w => strContains ql w) then "historical"
    else "anytime"
  let p1 := if ["different", "diverse", "other", "various", "perspectives", "viewpoints"].any (fun w => strContains ql w) then ["diverse"] else []
  let p2 := if ["mainstream", "popular", "common", "consensus"].any (fun w => strContains ql w) then ["mainstream"] else []
  let p3 := if ["critical", "against", "opposition", "disagree"].any (fun w => strContains ql w) then ["critical"] else []
  let p4 := if ["expert", "research", "study", "scientific", "evidence"].any (fun w => strContains ql w) then ["expert"] else []
  let perspective_prefs := p1 ++ p2 ++ p3 ++ p4
  let perspective_prefs := if perspective_prefs.isEmpty then ["diverse", "mainstream"] else perspective_prefs
  let depth_pref :=
    if ["briefly", "quick", "simple", "basics", "overview"].any (fun w => strContains ql w) then "surface"
    else if ["deep", "detail", "comprehensive", "thorough", "explain"].any (fun w => strContains ql w) then "deep"
    else "medium"
  { core_topic := query,
    time_preference := time_pref,
    perspective_preference := perspective_prefs,
    depth_preference := depth_pref,
    related_domains := [],
    key_entities := [],
    keywords := pySplitWs query }

/-- A claim as consumed by the discovery engine, with the fields (and the
source's defaults for absent keys) read by `_calculate_discovery_signals`
and `discover_content`.  `ann_count` models `annotation_count`,
`ann_diversity_score` models the annotation-diversity score (default 50). -/
structure DClaim where
  id : String
  author_id : String
  text : String
  domain : String
  perspective_type : String
  has_citations : Bool
  sources : List String
  ann_count : ℕ
  helpful_votes_total : ℕ
  controversial_votes_total : ℕ
  ann_diversity_score : ℚ
  originality_score : ℚ
  clarity_score : ℚ
  author_standing : ℚ
  age_hours : Option ℚ
deriving DecidableEq, Repr

/-- `_calculate_relevance` (lines 306-349). -/
def calcRelevance (claim : DClaim ) (intent : IntentData ) : ℚ :=
  let keywords := intent.keywords.dedup
  let claim_text_lower := lowerStr claim.text
  let keyword_matches := (keywords.filter (fun kw => strContains claim_text_lower (lowerStr kw))).length
  let keyword_score : ℚ := min 100 ((keyword_matches : ℚ) / ((max keywords.length 1 : ℕ) : ℚ) * 100)
  let domain_match_score : ℚ :=
    if intent.related_domains.isEmpty then 70
    else if intent.related_domains.contains claim.domain then 100 else 40
  let claim_text_words := pySplitWs claim_text_lower
  let entity_matches := (intent.key_entities.filter (fun e => claim_text_words.contains (lowerStr e))).length
  let entity_match_score : ℚ :=
    if intent.key_entities.isEmpty then 50
    else min 100 ((entity_matches : ℚ) / (intent.key_entities.length : ℚ) * 100)
  min 100 (max 0 (keyword_score * 0.4 + domain_match_score * 0.35 + entity_match_score * 0.25))

/-- `_calculate_diversity_score` (lines 351-381). -/
def calcDiversityScore (claim : DClaim ) (intent : IntentData ) : ℚ :=
  let base1 : ℚ := 50
  let base2 :=
    if intent.perspective_preference.contains "diverse"
        && !(["mainstream", "consensus"].contains claim.perspective_type) then 80 else base1
  let base3 :=
    if intent.perspective_preference.contains "expert"
        && (claim.has_citations || !claim.sources.isEmpty) then min 100 (base2 + 20) else base2
  base3 * 0.6 + claim.ann_diversity_score * 0.4

/-- `_calculate_engagement_quality` (lines 383-412). -/
def calcEngagementQuality (claim : DClaim ) : ℚ :=
  let has_sources := !claim.sources.isEmpty
  if claim.ann_count = 0 then (if has_sources then 55 else 40)
  else
    let quality : ℚ := (claim.helpful_votes_total : ℚ) / ((max claim.ann_count 1 : ℕ) : ℚ)
    let source_boost : ℚ := if has_sources then 15 else 0
    let controversy_penalty : ℚ := min 30 ((claim.controversial_votes_total : ℚ) * 2)
    min 100 (max 0 (quality * 70 + source_boost - controversy_penalty))

/-- `_calculate_recency_weight` (lines 414-456), over a pre-computed
`age_hours` (`none` models a missing `created_at`, giving the 50 default). -/
def calcRecencyWeight (age_hours : Option ℚ) (intent : IntentData ) : ℚ :=
  match age_hours with
  | none => 50
  | some h =>
    if intent.time_preference = "recent" then
      if h < 24 then 100
      else if h < 168 then 80 - h / 168 * 20
      else 40
    else if intent.time_preference = "historical" then
      if 30 * 24 < h then 100 - min 50 (h / (365 * 24) * 50)
      else 50
    else 100 - min 50 (h / (365 * 24) * 50)

/-- `author_standing = min(100, claim.get('author_standing', 1.0) * 20)`
(line 287). -/
def authorStandingSignal (claim : DClaim ) : ℚ := min 100 (claim.author_standing * 20)

/-- The signal bundle of `DiscoverySignals`. -/
structure DSignals where
  relevance_score : ℚ
  diversity_score : ℚ
  originality_score : ℚ
  engagement_quality : ℚ
  author_standing : ℚ
  recency_weight : ℚ
  clarity_signal : ℚ
deriving DecidableEq, Repr

/-- `_calculate_discovery_signals` (lines 254-304).  The `user_standing`
argument of the source is never read and is omitted. -/
def calcDiscoverySignals (claim : DClaim ) (intent : IntentData ) : DSignals :=
  { relevance_score := calcRelevance claim intent,
    diversity_score := calcDiversityScore claim intent,
    originality_score := claim.originality_score,
    engagement_quality := calcEngagementQuality claim,
    author_standing := authorStandingSignal claim,
    recency_weight := calcRecencyWeight claim.age_hours intent,
    clarity_signal := claim.clarity_score }

/-- The four discovery algorithm variants. -/
inductive DAlgo
  | relevance
  | diversity
  | emergent
  | standing_aware
deriving DecidableEq, Repr

/-- `_calculate_composite_score` (lines 458-508). -/
def calcCompositeScore (s : DSignals ) : DAlgo → ℚ
  | .relevance =>
      s.relevance_score * 0.5 + s.engagement_quality * 0.2 + s.clarity_signal * 0.15
        + s.originality_score * 0.1 + s.recency_weight * 0.05
  | .diversity =>
      s.diversity_score * 0.4 + s.relevance_score * 0.35 + s.engagement_quality * 0.15
        + s.originality_score * 0.1
  | .emergent =>
      s.originality_score * 0.4 + s.recency_weight * 0.25 + s.relevance_score * 0.2
        + s.clarity_signal * 0.15
  | .standing_aware =>
      s.relevance_score * 0.35 + s.author_standing * 0.3 + s.engagement_quality * 0.2
        + s.originality_score * 0.1 + s.diversity_score * 0.05

/-- A discovery result (the `relevance_match_explanation` and
`diversity_indicators` presentational fields are omitted). -/
structure DResult where
  claim_id : String
  author_id : String
  author_standing : ℚ
  title : String
  composite_score : ℚ
  perspective_type : String
  signals : DSignals
deriving DecidableEq, Repr

/-- Build the `DiscoveryResult` for one claim (lines 107-133). -/
def toResult (intent : IntentData ) (alg : DAlgo ) (claim : DClaim ) : DResult :=
  let signals := calcDiscoverySignals claim intent
  { claim_id := claim.id,
    author_id := claim.author_id,
    author_standing := claim.author_standing,
    title := claim.text.take 100,
    composite_score := calcCompositeScore signals alg,
    perspective_type := claim.perspective_type,
    signals := signals }

/-- `_apply_standing_aware_ranking` (lines 510-520): add
`(author_standing/100) × 15` to each score, re-sort. -/
def applyStandingAwareRanking (results : List DResult ) : List DResult :=
  sortDesc (fun r => r.composite_score)
    (results.map (fun r =>
      { r with composite_score := r.composite_score + r.author_standing / 100 * 15 }))

/-- `_apply_diversity_ranking` (lines 522-541): penalize over-represented
perspective types, re-sort. -/
def applyDiversityRanking (results : List DResult ) (diversity_preference : ℚ) : List DResult :=
  let penalized := results.map (fun r =>
    let cnt := (results.filter (fun x => x.perspective_type == r.perspective_type)).length
    { r with composite_score := r.composite_score - ((cnt : ℚ) - 1) * 5 * diversity_preference })
  sortDesc (fun r => r.composite_score) penalized

/-- `_apply_emergent_ranking` (lines 543-552): add
`(originality_score/100) × 20`, re-sort. -/
def applyEmergentRanking (results : List DResult ) : List DResult :=
  sortDesc (fun r => r.composite_score)
    (results.map (fun r =>
      { r with composite_score := r.composite_score + r.signals.originality_score / 100 * 20 }))

/-- `discover_content` (lines 78-146), deterministic-fallback intent path.
The `user_standing` argument of the source is never read downstream and is
omitted. -/
def discoverContent (user_query : String) (available_claims : List DClaim )
    (alg : DAlgo ) (limit : ℕ) (diversity_preference : ℚ) : List DResult :=
  let intent := analyzeUserIntentFallback user_query
  let results := available_claims.map (toResult intent alg)
  let sorted := sortDesc (fun r => r.composite_score) results
  let adjusted :=
    match alg with
    | .standing_aware => applyStandingAwareRanking sorted
    | .diversity => applyDiversityRanking sorted diversity_preference
    | .emergent => applyEmergentRanking sorted
    | .relevance => sorted
  adjusted.take limit

/-! ### Statements and inputs used by the claims -/

/-- The engagement-consistency formula as the specification words it:
a base from the total contribution count, plus 30 when both kinds of
contribution exist (else 15 when only annotated content exists), plus a
balance term, capped at 100. -/
def engagementFormulaSpec (claims_posted annos_added : ℕ) : ℚ :=
  let total := claims_posted + annos_added
  let base : ℚ :=
    if 50 ≤ total then 40
    else if 20 ≤ total then 30
    else if 10 ≤ total then 20
    else if 5 ≤ total then 15
    else 5
  let both_bonus : ℚ :=
    if 0 < claims_posted ∧ 0 < annos_added then 30
    else if 0 < annos_added then 15 else 0
  let balance : ℚ :=
    if 0 < claims_posted ∧ 0 < annos_added then
      ((min claims_posted annos_added : ℕ) : ℚ) / ((max claims_posted annos_added : ℕ) : ℚ) * 20
    else 0
  min 100 (base + both_bonus + balance)

/-- The stability property claimed of discovery output: any two output
items with equal composite scores appear in the order of their claims in
the input list. -/
def tiesRespectInputOrder (input : List DClaim ) (out : List DResult ) : Prop :=
  ∀ i j : Fin out.length, i < j →
    (out.get i).composite_score = (out.get j).composite_score →
    List.indexOf (out.get i).claim_id (input.map (fun c => c.id))
      ≤ List.indexOf (out.get j).claim_id (input.map (fun c => c.id))

instance (input : List DClaim ) (out : List DResult ) :
    Decidable (tiesRespectInputOrder input out) := by
  unfold tiesRespectInputOrder; infer_instance

/-- Discovery corpus item used as a concrete input: a non-mainstream
perspective and raw author standing 5. -/
def dClaimA : DClaim :=
  { id := "A", author_id := "ua", text := "a", domain := "",
    perspective_type := "neutral", has_citations := false, sources := [],
    ann_count := 0, helpful_votes_total := 0, controversial_votes_total := 0,
    ann_diversity_score := 50, originality_score := 50, clarity_score := 50,
    author_standing := 5, age_hours := none }

/-- Discovery corpus item used as a concrete input: same text as
`dClaimA` but a mainstream perspective (initial composite 0.9 lower) and
raw author standing 11, chosen so that the standing-aware post-sort boost
(`standing/100 × 15`) equalises the two final composite scores. -/
def dClaimB : DClaim :=
  { id := "B", author_id := "ub", text := "a", domain := "",
    perspective_type := "mainstream", has_citations := false, sources := [],
    ann_count := 0, helpful_votes_total := 0, controversial_votes_total := 0,
    ann_diversity_score := 50, originality_score := 50, clarity_score := 50,
    author_standing := 11, age_hours := none }

/-- The discovery result built for `dClaimA` under the standing-aware
algorithm and the fallback intent of the query `"a"`. -/
def resultA : DResult := toResult (analyzeUserIntentFallback "a") DAlgo.standing_aware dClaimA

/-- The discovery result built for `dClaimB` likewise. -/
def resultB : DResult := toResult (analyzeUserIntentFallback "a") DAlgo.standing_aware dClaimB

/-- `resultA` after the standing-aware post-sort boost. -/
def resultA_boosted : DResult :=
  { resultA with composite_score := resultA.composite_score + resultA.author_standing / 100 * 15 }

/-- `resultB` after the standing-aware post-sort boost. -/
def resultB_boosted : DResult :=
  { resultB with composite_score := resultB.composite_score + resultB.author_standing / 100 * 15 }

/-- A corpus claim whose text is a single stop word. -/
def exThe : ExClaim := { id := "t1", author_id := "u1", text := "the", created_at := "", ann_count := 0 }

/-- A second claim with the identical stop-word-only text. -/
def exThe2 : ExClaim := { id := "t2", author_id := "u2", text := "the", created_at := "", ann_count := 0 }

/-- A claim with ordinary content words. -/
def exHello : ExClaim := { id := "h1", author_id := "u1", text := "hello world", created_at := "", ann_count := 0 }

/-- A distinct claim with the identical text. -/
def exHello2 : ExClaim := { id := "h2", author_id := "u2", text := "hello world", created_at := "", ann_count := 0 }

/-- An annotation whose author id is the empty string. -/
def selfAnn : Annot :=
  { author_id := some "", helpful_votes := 0, not_helpful_votes := 0,
    author_rep := 10, classification_confidence := 0.9, ann_type := .support }

/-- A gated-in supporting annotation by some other user. -/
def otherAnn : Annot :=
  { author_id := some "u2", helpful_votes := 3, not_helpful_votes := 0,
    author_rep := 20, classification_confidence := 0.9, ann_type := .support }

/-- A self-annotation by the author `u`. -/
def ownAnn : Annot :=
  { author_id := some "u", helpful_votes := 1, not_helpful_votes := 0,
    author_rep := 12, classification_confidence := 0.8, ann_type := .support }

/-! ## Theorems -/

/-! ### Properties of the stable descending sort -/

lemma reputationBoost_of_lt (avg : ℚ) (h : avg < 50) : reputationBoost avg = 0 := by
  unfold reputationBoost BOOST_THRESHOLD
  rw [if_neg (not_le.mpr h)]

lemma reputationBoost_of_ge (avg : ℚ) (h : 50 ≤ avg) :
    reputationBoost avg = min (max (5 + (avg - 50) / 50 * 10) 5) 15 := by
  unfold reputationBoost BOOST_THRESHOLD MIN_BOOST MAX_BOOST
  rw [if_pos h]
  norm_num

/-- Claim C1: for every evaluated post, if `avg_score` (the mean of the
five axis scores plus the media axis when present) is below 50 the
reputation boost is 0; at or above 50 it is
`5 + ((avg−50)/50) × 10` clamped to `[5, 15]`; in particular the boost is
5 at `avg = 50`, 15 at `avg = 100`, and always lies in `{0} ∪ [5, 15]`. -/
theorem claim_C1_reputation_boost
    (clarity originality relevance effort evidentiary : ℚ) (media : Option ℚ) (avg : ℚ)
    (havg : avg = avgScore clarity originality relevance effort evidentiary media) :
    (avg < 50 → evaluatePostBoost clarity originality relevance effort evidentiary media = 0) ∧
    (50 ≤ avg → evaluatePostBoost clarity originality relevance effort evidentiary media
      = min (max (5 + (avg - 50) / 50 * 10) 5) 15) ∧
    (avg = 50 → evaluatePostBoost clarity originality relevance effort evidentiary media = 5) ∧
    (avg = 100 → evaluatePostBoost clarity originality relevance effort evidentiary media = 15) ∧
    (evaluatePostBoost clarity originality relevance effort evidentiary media = 0 ∨
      (5 ≤ evaluatePostBoost clarity originality relevance effort evidentiary media ∧
        evaluatePostBoost clarity originality relevance effort evidentiary media ≤ 15)) := by
  have hb : evaluatePostBoost clarity originality relevance effort evidentiary media
      = reputationBoost avg := by
    rw [havg]; rfl
  rw [hb]
  refine ⟨fun h => reputationBoost_of_lt avg h, fun h => reputationBoost_of_ge avg h, ?_, ?_, ?_⟩
  · rintro rfl
    rw [reputationBoost_of_ge 50 le_rfl]
    norm_num
  · rintro rfl
    rw [reputationBoost_of_ge 100 (by norm_num)]
    norm_num
  · by_cases h : avg < 50
    · exact Or.inl (reputationBoost_of_lt avg h)
    · refine Or.inr ?_
      rw [reputationBoost_of_ge avg (not_lt.mp h)]
      constructor
      · exact le_min (le_max_right _ _) (by norm_num)
      · exact min_le_right _ _

/-- Witness for C1 at the five axis scores all 60 with no media:
`avg = 60 ≥ 50` and the boost follows the clamped linear formula. -/
theorem claim_C1_witness :
    (50 : ℚ) ≤ 60 ∧
    evaluatePostBoost 60 60 60 60 60 none = min (max (5 + ((60 : ℚ) - 50) / 50 * 10) 5) 15 :=
  ⟨by norm_num,
   (claim_C1_reputation_boost 60 60 60 60 60 none 60 (by norm_num [avgScore])).2.1 (by norm_num)⟩

/-- Claim C6: any account younger than 7 days has standing tier
`emerging`, whatever the five metric values (hence whatever the overall
score). -/
theorem claim_C6_young_account_emerging (age_days : ℤ)
    (content_quality engagement originality feedback tenure : ℚ)
    (h : age_days < 7) :
    standingTier age_days content_quality engagement originality feedback tenure
      = Tier.emerging := by
  unfold standingTier determineTier
  rw [if_pos h]

/-- Witness for C6: an account of age 3 days with all five metrics at 100
(overall score 100) is still `emerging`. -/
theorem claim_C6_witness :
    (3 : ℤ) < 7 ∧ standingTier 3 100 100 100 100 100 = Tier.emerging :=
  ⟨by norm_num, claim_C6_young_account_emerging 3 100 100 100 100 100 (by norm_num)⟩

/-- Counterexample to C10: for zero claims and zero annotations the code
returns 30, while the claimed formula (base 5, no bonuses, cap 100) gives
5. -/
theorem claim_C10_counterexample :
    evaluateEngagementConsistency 0 0 = 30 ∧ engagementFormulaSpec 0 0 = 5 ∧
    evaluateEngagementConsistency 0 0 ≠ engagementFormulaSpec 0 0 := by
  have h1 : evaluateEngagementConsistency 0 0 = 30 := rfl
  have h2 : engagementFormulaSpec 0 0 = 5 := by norm_num [engagementFormulaSpec]
  refine ⟨h1, h2, ?_⟩
  rw [h1, h2]
  norm_num

/-- C10 as amended: when at least one contribution exists, the
engagement-consistency metric equals the claimed formula (base by total
count, plus 30 when both kinds exist else 15 for annotations only, plus
`min/max × 20` when both exist, capped at 100); with zero contributions
it is the fixed value 30 instead. -/
theorem claim_C10_amended (claims_posted annos_added : ℕ) :
    (claims_posted + annos_added = 0 → evaluateEngagementConsistency claims_posted annos_added = 30) ∧
    (0 < claims_posted + annos_added →
      evaluateEngagementConsistency claims_posted annos_added
        = engagementFormulaSpec claims_posted annos_added) := by
  constructor
  · intro h
    unfold evaluateEngagementConsistency
    rw [if_pos h]
  · intro h
    unfold evaluateEngagementConsistency engagementFormulaSpec
    rw [if_neg (by omega)]

/-- Witness for the amended C10 at 2 claims and 3 annotations. -/
theorem claim_C10_witness :
    0 < 2 + 3 ∧ evaluateEngagementConsistency 2 3 = engagementFormulaSpec 2 3 :=
  ⟨by norm_num, (claim_C10_amended 2 3).2 (by norm_num)⟩

/-- Counterexample to C9: an `emerging` user with overall score 60 is
reported a score gap of 10 (the code's threshold table gives 70 for the
next tier `consistent`), not the gap `max 0 (50 − 60) = 0` to the score
at which the tier rule actually awards `consistent`. -/
theorem claim_C9_counterexample :
    getNextTierRequirements Tier.emerging 60 [] =
      Except.ok (some ⟨Tier.consistent, 10, 60, [], 1⟩) ∧
    (10 : ℚ) ≠ max 0 (50 - 60) := by
  constructor
  · unfold getNextTierRequirements nextTierOf tierThresholds
    rw [if_neg (by simp : ¬ Tier.emerging = Tier.trusted)]
    norm_num [NextReqs.mk.injEq]
  · norm_num

/-- C9 as amended: the next-tier report uses the code's threshold table —
70 from `emerging` (next tier `consistent`), 80 from `consistent`
(next `established`), 90 from `established` (next `expert`) — reporting
`score_needed = max 0 (threshold − overall)`, the metrics below 70 as
focus areas, and `estimate_weeks = max(1, ⌊gap/10⌋)` when the gap is
positive else 0.  From `expert` the threshold lookup yields Python `None`
and `None - score` raises `TypeError`; at `trusted` the result is `None`. -/
theorem claim_C9_amended (score : ℚ) (metrics : List MetricV ) :
    (getNextTierRequirements Tier.emerging score metrics =
      Except.ok (some ⟨Tier.consistent, max 0 (70 - score), score,
        (metrics.filter (fun m => m.value < 70)).map (fun m => m.name),
        if 0 < 70 - score then max 1 ⌊(70 - score) / 10⌋ else 0⟩)) ∧
    (getNextTierRequirements Tier.consistent score metrics =
      Except.ok (some ⟨Tier.established, max 0 (80 - score), score,
        (metrics.filter (fun m => m.value < 70)).map (fun m => m.name),
        if 0 < 80 - score then max 1 ⌊(80 - score) / 10⌋ else 0⟩)) ∧
    (getNextTierRequirements Tier.established score metrics =
      Except.ok (some ⟨Tier.expert, max 0 (90 - score), score,
        (metrics.filter (fun m => m.value < 70)).map (fun m => m.name),
        if 0 < 90 - score then max 1 ⌊(90 - score) / 10⌋ else 0⟩)) ∧
    getNextTierRequirements Tier.expert score metrics = Except.error () ∧
    getNextTierRequirements Tier.trusted score metrics = Except.ok none := by
  refine ⟨rfl, rfl, rfl, rfl, rfl⟩

theorem mem_insertDesc (key : α → ℚ) (x a : α) :
    ∀ l : List α, a ∈ insertDesc key x l ↔ a = x ∨ a ∈ l
  | [] => by simp [insertDesc]
  | y :: ys => by
    by_cases h : key y ≤ key x
    · simp [insertDesc, h]
    · simp only [insertDesc, if_neg h, List.mem_cons, mem_insertDesc key x a ys]
      tauto

theorem perm_insertDesc (key : α → ℚ) (x : α) :
    ∀ l : List α, List.Perm (insertDesc key x l) (x :: l)
  | [] => List.Perm.refl _
  | y :: ys => by
    by_cases h : key y ≤ key x
    · simp [insertDesc, h]
    · simpa [insertDesc, if_neg h] using
        ((perm_insertDesc key x ys).cons y).trans (List.Perm.swap x y ys)

theorem sortDesc_perm (key : α → ℚ) : ∀ l : List α, List.Perm (sortDesc key l) l
  | [] => List.Perm.refl _
  | x :: xs =>
    (perm_insertDesc key x (sortDesc key xs)).trans ((sortDesc_perm key xs).cons x)

theorem sorted_insertDesc (key : α → ℚ) (x : α) (l : List α)
    (h : l.Pairwise (fun a b => key b ≤ key a)) :
    (insertDesc key x l).Pairwise (fun a b => key b ≤ key a) := by
  induction l with
  | nil => simp [insertDesc]
  | cons y ys ih =>
    rcases List.pairwise_cons.mp h with ⟨hy, hys⟩
    by_cases hxy : key y ≤ key x
    · rw [insertDesc, if_pos hxy]
      refine List.pairwise_cons.mpr ⟨?_, h⟩
      intro b hb
      rcases List.mem_cons.mp hb with rfl | hb
      · exact hxy
      · exact le_trans (hy b hb) hxy
    · rw [insertDesc, if_neg hxy]
      refine List.pairwise_cons.mpr ⟨?_, ih hys⟩
      intro b hb
      rcases (mem_insertDesc key x b ys).mp hb with rfl | hb
      · exact le_of_lt (lt_of_not_le hxy)
      · exact hy b hb

theorem sortDesc_sorted (key : α → ℚ) :
    ∀ l : List α, (sortDesc key l).Pairwise (fun a b => key b ≤ key a)
  | [] => List.Pairwise.nil
  | x :: xs => sorted_insertDesc key x (sortDesc key xs) (sortDesc_sorted key xs)

/-- Stability of the insertion step: filtering the output at a fixed key
value `c` recovers exactly the filtered input (with `x` in front when
`key x = c`), because passed-over elements have keys strictly above `key x`. -/
theorem filter_insertDesc (key : α → ℚ) (x : α) (c : ℚ) :
    ∀ l : List α,
      (insertDesc key x l).filter (fun a => key a = c) =
        if key x = c then x :: l.filter (fun a => key a = c)
        else l.filter (fun a => key a = c)
  | [] => by
    by_cases hx : key x = c <;> simp [insertDesc, hx]
  | y :: ys => by
    rw [insertDesc]
    by_cases hxy : key y ≤ key x
    · rw [if_pos hxy]
      by_cases hx : key x = c <;> simp [List.filter_cons, hx]
    · rw [if_neg hxy]
      have hlt : key x < key y := lt_of_not_le hxy
      by_cases hx : key x = c
      · have hy : ¬ key y = c := fun hyc => (ne_of_lt hlt) (hx.trans hyc.symm)
        simp [List.filter_cons, filter_insertDesc key x c ys, hx, hy]
      · by_cases hy : key y = c <;>
          simp [List.filter_cons, filter_insertDesc key x c ys, hx, hy]

/-- Stability of `sortDesc`: the sublist of elements whose key equals any
fixed value `c` is unchanged by the sort. -/
theorem filter_sortDesc (key : α → ℚ) (c : ℚ) :
    ∀ l : List α,
      (sortDesc key l).filter (fun a => key a = c) = l.filter (fun a => key a = c)
  | [] => rfl
  | x :: xs => by
    rw [sortDesc, filter_insertDesc key x c (sortDesc key xs),
      filter_sortDesc key c xs]
    by_cases hx : key x = c <;> simp [List.filter_cons, hx]

/-! ### Post-score aggregation: per-annotation weight, evidence gate,
self-annotation exclusion -/

/-- Claim C2: every annotation carries weight
`max(0.2, (1 + h×0.2 − n×0.1) × clamp(r/10, 0.6, 2) × (0.6 + 0.4×clamp(c, 0, 1)))`,
and its stance is accumulated into `support_weight` / `contradict_weight`
at full weight exactly when `h ≥ 2` or `r ≥ 15` or `c ≥ 0.7`, and at 25%
of the weight otherwise. -/
theorem claim_C2_weight_and_evidence_gate (a : Annot ) (cid : Option String)
    (anns : List Annot ) (hskip : skipAnn cid a = false) :
    annWeight a = max 0.2 ((1 + (a.helpful_votes : ℚ) * 0.2 - (a.not_helpful_votes : ℚ) * 0.1)
        * min 2 (max 0.6 (a.author_rep / 10))
        * (0.6 + 0.4 * min 1 (max 0 a.classification_confidence))) ∧
    (hasEvidence a = true ↔
      (2 ≤ a.helpful_votes ∨ 15 ≤ a.author_rep ∨ (0.7 : ℚ) ≤ a.classification_confidence)) ∧
    (a.ann_type = Stance.support →
      (aggregate cid (anns ++ [a])).support_weight
        = (aggregate cid anns).support_weight + stanceContribution a) ∧
    (a.ann_type = Stance.contradict →
      (aggregate cid (anns ++ [a])).contradict_weight
        = (aggregate cid anns).contradict_weight + stanceContribution a) ∧
    (stanceContribution a = annWeight a ↔ hasEvidence a = true) ∧
    (hasEvidence a = false → stanceContribution a = annWeight a * 0.25) := by
  have hagg : aggregate cid (anns ++ [a]) = aggStep cid (aggregate cid anns) a := by
    unfold aggregate
    rw [List.foldl_append]
    rfl
  have hif : ¬ (skipAnn cid a = true) := by simp [hskip]
  refine ⟨rfl, ?_, ?_, ?_, ?_, ?_⟩
  · unfold hasEvidence
    simp [or_assoc]
  · intro h
    rw [hagg]
    unfold aggStep
    rw [if_neg hif, h]
  · intro h
    rw [hagg]
    unfold aggStep
    rw [if_neg hif, h]
  · constructor
    · intro hEq
      by_contra hev
      have hev' : hasEvidence a = false := by
        cases hx : hasEvidence a
        · rfl
        · exact absurd hx hev
      rw [stanceContribution, if_neg (by simp [hev'])] at hEq
      have hw : (0.2 : ℚ) ≤ annWeight a := le_max_left _ _
      nlinarith [hEq, hw]
    · intro hev
      rw [stanceContribution, if_pos (by simp [hev])]
  · intro hev
    rw [stanceContribution, if_neg (by simp [hev])]

/-- Witness for C2: a supporting annotation with 3 helpful votes,
reputation 20 and confidence 0.9, appended to an empty annotation set of a
different author, adds exactly its stance contribution. -/
theorem claim_C2_witness :
    skipAnn (some "author") otherAnn = false ∧
    (aggregate (some "author") ([] ++ [otherAnn])).support_weight
      = (aggregate (some "author") []).support_weight + stanceContribution otherAnn :=
  ⟨rfl, (claim_C2_weight_and_evidence_gate otherAnn (some "author") [] rfl).2.2.1 rfl⟩

lemma foldl_aggStep_filter (cid : Option String) (h : optStrTruthy cid = true) :
    ∀ (anns : List Annot ) (s : AggState),
      (anns.filter (fun a => !(a.author_id == cid))).foldl (aggStep cid) s
        = anns.foldl (aggStep cid) s
  | [], _ => rfl
  | a :: anns, s => by
    by_cases hid : (a.author_id == cid) = true
    · have hskip : skipAnn cid a = true := by simp [skipAnn, h, hid]
      have hstep : aggStep cid s a = s := by
        unfold aggStep
        rw [if_pos hskip]
      simp only [List.filter_cons, hid, Bool.not_true, if_neg (by simp : ¬ (false = true)),
        List.foldl_cons, hstep]
      exact foldl_aggStep_filter cid h anns s
    · have hid' : (a.author_id == cid) = false := by
        cases hx : (a.author_id == cid)
        · rfl
        · exact absurd hx hid
      simp only [List.filter_cons, hid', Bool.not_false, if_pos rfl, List.foldl_cons]
      exact foldl_aggStep_filter cid h anns (aggStep cid s a)

/-- C3 as amended: when the claim author id is truthy (a non-empty
string, the only shape the application produces), self-annotations are
excluded from the aggregation entirely: deleting them from the annotation
list — or prepending one — never changes the post score. -/
theorem claim_C3_self_annotation_invariance (anns : List Annot )
    (baseline : Option (ℚ × ℚ × ℚ × ℚ × ℚ)) (cid : Option String)
    (h : optStrTruthy cid = true) :
    calculatePostScore (anns.filter (fun a => !(a.author_id == cid))) baseline cid
      = calculatePostScore anns baseline cid ∧
    (∀ a : Annot , a.author_id = cid →
      calculatePostScore (a :: anns) baseline cid = calculatePostScore anns baseline cid) := by
  constructor
  · unfold calculatePostScore aggregate
    rw [foldl_aggStep_filter cid h anns aggInit]
  · intro a ha
    have hskip : skipAnn cid a = true := by simp [skipAnn, h, ha]
    have hstep : aggStep cid aggInit a = aggInit := by
      unfold aggStep
      rw [if_pos hskip]
    unfold calculatePostScore aggregate
    rw [List.foldl_cons, hstep]

/-- Counterexample to C3 as stated: with the empty string as the content
author id (a falsy value in Python), the guard
`if claim_author_id and ...` never fires, so an annotation whose author
id equals the content author's id does change the post score. -/
theorem claim_C3_counterexample :
    selfAnn.author_id = some "" ∧
    calculatePostScore [selfAnn] none (some "") ≠ calculatePostScore [] none (some "") := by
  refine ⟨rfl, ?_⟩
  have h0 : calculatePostScore [] none (some "") = 0 := by
    norm_num [calculatePostScore, aggregate, aggInit, baseScore]
  have h1 : calculatePostScore [selfAnn] none (some "") = 171 / 250 := by
    norm_num [calculatePostScore, aggregate, aggInit, baseScore, aggStep, skipAnn,
      optStrTruthy, selfAnn, stanceContribution, hasEvidence, annWeight, repFactor,
      confidenceFactor]
  rw [h0, h1]
  norm_num

/-- Witness for the amended C3: a single self-annotation by author `u` is
filtered out without changing the score of `u`'s content. -/
theorem claim_C3_witness :
    optStrTruthy (some "u") = true ∧
    calculatePostScore (List.filter (fun a => !(a.author_id == some "u")) [ownAnn]) none (some "u")
      = calculatePostScore [ownAnn] none (some "u") :=
  ⟨rfl, (claim_C3_self_annotation_invariance [ownAnn] none (some "u") rfl).1⟩

/-! ### Originality detection -/

lemma filter_contains_self (l : List String) : l.filter (fun w => l.contains w) = l :=
  List.filter_eq_self.mpr (fun a ha => by simpa [List.contains, List.elem_iff] using ha)

lemma filter_not_contains_self (l : List String) : l.filter (fun w => !l.contains w) = [] :=
  List.filter_eq_nil_iff.mpr (fun a ha => by simp [List.contains, List.elem_iff, ha])

lemma calcSimilarity_le_one (t1 t2 : String) : calcSimilarity t1 t2 ≤ 1 := by
  simp only [calcSimilarity]
  split_ifs with h h2
  · norm_num
  · exact min_le_left _ _
  · exact min_le_left _ _

lemma mem_findSimilarContent {t : String} {existing : List ExClaim } {m : SimMatch } :
    m ∈ findSimilarContent t existing ↔
      ∃ c, (c ∈ existing ∧ moderate_similarity ≤ calcSimilarity t c.text) ∧ mkMatch t c = m := by
  unfold findSimilarContent
  rw [(sortDesc_perm _ _).mem_iff]
  simp [List.mem_map, List.mem_filter]

/-- Claim C4: the similar-content matches are exactly the corpus items
with combined similarity `≥ 0.55` (as a permutation of that filtered
corpus view), sorted descending by similarity; the analysis keeps the
top 5; and the originality score is 100 with no matches, else
`100 − highest_similarity × 100`. -/
theorem claim_C4_matches_and_originality (claim : ExClaim ) (existing : List ExClaim ) :
    List.Perm (findSimilarContent claim.text existing)
      ((existing.filter (fun c => moderate_similarity ≤ calcSimilarity claim.text c.text)).map
        (mkMatch claim.text)) ∧
    (findSimilarContent claim.text existing).Pairwise (fun a b => b.similarity ≤ a.similarity) ∧
    (analyzeOriginality claim existing).similarity_matches
      = (findSimilarContent claim.text existing).take 5 ∧
    (findSimilarContent claim.text existing = [] →
      (analyzeOriginality claim existing).originality_score = 100) ∧
    (∀ m ms, findSimilarContent claim.text existing = m :: ms →
      (analyzeOriginality claim existing).originality_score = 100 - m.similarity * 100) := by
  refine ⟨?_, ?_, rfl, ?_, ?_⟩
  · unfold findSimilarContent
    exact sortDesc_perm _ _
  · unfold findSimilarContent
    exact sortDesc_sorted _ _
  · intro h
    simp [analyzeOriginality, h, calcOriginalityScore]
  · intro m ms h
    have hm : m ∈ findSimilarContent claim.text existing := by
      rw [h]
      exact List.mem_cons_self m ms
    obtain ⟨c, ⟨_, hle⟩, hmk⟩ := mem_findSimilarContent.mp hm
    have hsim1 : m.similarity ≤ 1 := by
      rw [← hmk]
      exact calcSimilarity_le_one _ _
    have h055 : (0.55 : ℚ) ≤ m.similarity := by
      rw [← hmk]
      simpa [mkMatch, moderate_similarity] using hle
    simp only [analyzeOriginality, h, calcOriginalityScore]
    rw [min_eq_right (by nlinarith), max_eq_right (by nlinarith)]

/-- Witness for C4 on an empty corpus: no matches and originality 100. -/
theorem claim_C4_witness :
    findSimilarContent exHello.text [] = [] ∧
    (analyzeOriginality exHello []).originality_score = 100 :=
  ⟨rfl, (claim_C4_matches_and_originality exHello []).2.2.2.1 rfl⟩

lemma calcSimilarity_self (t : String) (htok : tokenize t ≠ [])
    (hkw : (tokenSet t).filter (fun w => !stopWords.contains w) ≠ []) :
    calcSimilarity t t = 1 := by
  have hset : tokenSet t ≠ [] := by
    unfold tokenSet
    simpa [List.dedup_eq_nil] using htok
  have hemp : (tokenSet t).isEmpty = false := by
    cases hx : tokenSet t with
    | nil => exact absurd hx hset
    | cons a l => rfl
  have hkemp : ((tokenSet t).filter (fun w => !stopWords.contains w)).isEmpty = false := by
    cases hx : (tokenSet t).filter (fun w => !stopWords.contains w) with
    | nil => exact absurd hx hkw
    | cons a l => rfl
  have hlen : ((tokenSet t).length : ℚ) ≠ 0 :=
    Nat.cast_ne_zero.mpr (by simpa [List.length_eq_zero] using hset)
  have hklen : ((((tokenSet t).filter (fun w => !stopWords.contains w)).length : ℕ) : ℚ) ≠ 0 :=
    Nat.cast_ne_zero.mpr (by simpa [List.length_eq_zero] using hkw)
  have hsem : semanticFallback t t = 1 := by
    simp only [semanticFallback, hemp, hkemp, Bool.or_self, Bool.false_eq_true, if_false]
    rw [filter_contains_self, max_self, div_self hklen]
  simp only [calcSimilarity, hemp, Bool.or_self, Bool.false_eq_true, if_false, hsem]
  rw [filter_contains_self, filter_not_contains_self, List.append_nil]
  rw [if_pos (List.length_pos.mpr hset), div_self hlen]
  norm_num

/-- C5 as amended: for a candidate whose text tokenizes to a non-empty
token list with at least one non-stop-word token, an identical text in
the corpus yields pair similarity exactly 1.0, novelty level
`"duplicate"`, and `boost_eligible = false` (deterministic fallback
similarity path). -/
theorem claim_C5_duplicate_detection (claim : ExClaim ) (existing : List ExClaim )
    (c : ExClaim ) (hmem : c ∈ existing) (hsame : c.text = claim.text)
    (htok : tokenize claim.text ≠ [])
    (hkw : (tokenSet claim.text).filter (fun w => !stopWords.contains w) ≠ []) :
    calcSimilarity claim.text c.text = 1 ∧
    (analyzeOriginality claim existing).novelty_level = "duplicate" ∧
    (analyzeOriginality claim existing).boost_eligible = false := by
  have hsim : calcSimilarity claim.text c.text = 1 := by
    rw [hsame]
    exact calcSimilarity_self claim.text htok hkw
  have hmm : mkMatch claim.text c ∈ findSimilarContent claim.text existing := by
    rw [mem_findSimilarContent]
    refine ⟨c, ⟨hmem, ?_⟩, rfl⟩
    rw [hsim]
    norm_num [moderate_similarity]
  have hdup : (findSimilarContent claim.text existing).any
      (fun m => similarity_threshold < m.similarity) = true := by
    rw [List.any_eq_true]
    refine ⟨mkMatch claim.text c, hmm, ?_⟩
    simp only [mkMatch, hsim, decide_eq_true_eq]
    norm_num [similarity_threshold]
  have hnov : determineNoveltyLevel
      (calcOriginalityScore (findSimilarContent claim.text existing))
      (findSimilarContent claim.text existing) = "duplicate" := by
    simp only [determineNoveltyLevel, hdup, if_true]
  refine ⟨hsim, ?_, ?_⟩
  · simpa only [analyzeOriginality] using hnov
  · simp only [analyzeOriginality, hnov]
    simp

/-- Witness for the amended C5: duplicated text `"hello world"`. -/
theorem claim_C5_witness :
    (analyzeOriginality exHello [exHello2]).novelty_level = "duplicate" ∧
    (analyzeOriginality exHello [exHello2]).boost_eligible = false :=
  ⟨(claim_C5_duplicate_detection exHello [exHello2] exHello2 (List.mem_cons_self _ _) rfl
      (by decide) (by decide)).2.1,
   (claim_C5_duplicate_detection exHello [exHello2] exHello2 (List.mem_cons_self _ _) rfl
      (by decide) (by decide)).2.2⟩

/-- Counterexample to C5 as stated: the one-word text `"the"` duplicated
in the corpus.  Its token set survives tokenization but is wiped out by
the stop-word filter, so the fallback semantic similarity is 0, the
combined similarity of the identical pair is only 0.4 (< 0.55), and the
analysis reports `highly_original` with `boost_eligible = True`. -/
theorem claim_C5_counterexample :
    calcSimilarity exThe.text exThe2.text = 2 / 5 ∧
    (analyzeOriginality exThe [exThe2]).novelty_level = "highly_original" ∧
    (analyzeOriginality exThe [exThe2]).boost_eligible = true := by
  have hsim : calcSimilarity "the" "the" = 2 / 5 := by
    have h : tokenSet "the" = ["the"] := by decide
    have hsem : semanticFallback "the" "the" = 0 := by
      simp only [semanticFallback, h]
      norm_num [stopWords]
    simp only [calcSimilarity, h, hsem]
    norm_num
  have hfind : findSimilarContent "the" [exThe2] = [] := by
    have hnot : ¬ (moderate_similarity ≤ calcSimilarity "the" "the") := by
      rw [hsim]
      norm_num [moderate_similarity]
    unfold findSimilarContent
    simp [exThe2, List.filter_cons, hnot, sortDesc]
  refine ⟨hsim, ?_, ?_⟩
  · simp only [analyzeOriginality]
    show determineNoveltyLevel (calcOriginalityScore (findSimilarContent "the" [exThe2]))
        (findSimilarContent "the" [exThe2]) = "highly_original"
    rw [hfind]
    norm_num [determineNoveltyLevel, calcOriginalityScore]
  · simp only [analyzeOriginality]
    show (decide (75 ≤ calcOriginalityScore (findSimilarContent "the" [exThe2])) &&
        (determineNoveltyLevel (calcOriginalityScore (findSimilarContent "the" [exThe2]))
            (findSimilarContent "the" [exThe2]) == "highly_original" ||
          determineNoveltyLevel (calcOriginalityScore (findSimilarContent "the" [exThe2]))
            (findSimilarContent "the" [exThe2]) == "original")) = true
    rw [hfind]
    norm_num [determineNoveltyLevel, calcOriginalityScore]

/-! ### Discovery recency weighting -/

/-- C8 as amended: under a `historical` time preference, items aged at
most 30 days (720 hours) get the baseline 50; older items get
`100 − min(50, age_hours/8760 × 50)`, which lies in `[50, 100)`, starts
near 96 just past 30 days, *decreases* with age, and is exactly 50 from
one year of age onwards. -/
theorem claim_C8_historical_recency (intent : IntentData )
    (h : intent.time_preference = "historical") (a b : ℚ) :
    (a ≤ 720 → calcRecencyWeight (some a) intent = 50) ∧
    (720 < a → calcRecencyWeight (some a) intent = 100 - min 50 (a / 8760 * 50)) ∧
    (720 < a → 50 ≤ calcRecencyWeight (some a) intent ∧
      calcRecencyWeight (some a) intent < 100) ∧
    (8760 ≤ a → calcRecencyWeight (some a) intent = 50) ∧
    (720 < a → a ≤ b →
      calcRecencyWeight (some b) intent ≤ calcRecencyWeight (some a) intent) := by
  have hw : ∀ x : ℚ, calcRecencyWeight (some x) intent
      = if 720 < x then 100 - min 50 (x / 8760 * 50) else 50 := by
    intro x
    simp only [calcRecencyWeight, h]
    rw [if_neg (by decide : ¬ ("historical" = "recent")), if_pos trivial]
    norm_num
  refine ⟨?_, ?_, ?_, ?_, ?_⟩
  · intro ha
    rw [hw a, if_neg (not_lt.mpr ha)]
  · intro ha
    rw [hw a, if_pos ha]
  · intro ha
    rw [hw a, if_pos ha]
    constructor
    · have hle : min 50 (a / 8760 * 50) ≤ 50 := min_le_left _ _
      linarith
    · have ha0 : (0 : ℚ) < a := lt_trans (by norm_num) ha
      have h0 : (0 : ℚ) < a / 8760 * 50 := by positivity
      have : (0 : ℚ) < min 50 (a / 8760 * 50) := lt_min (by norm_num) h0
      linarith
  · intro ha
    rw [hw a, if_pos (by linarith : (720 : ℚ) < a)]
    have h1 : (1 : ℚ) ≤ a / 8760 := (le_div_iff₀ (by norm_num)).mpr (by linarith)
    have h50 : (50 : ℚ) ≤ a / 8760 * 50 := by nlinarith
    rw [min_eq_left h50]
    norm_num
  · intro ha hab
    rw [hw a, hw b, if_pos ha, if_pos (lt_of_lt_of_le ha hab)]
    have hdiv : a / 8760 * 50 ≤ b / 8760 * 50 := by
      have := (div_le_div_iff_of_pos_right (c := (8760 : ℚ)) (by norm_num)).mpr hab
      nlinarith
    have hmin : min 50 (a / 8760 * 50) ≤ min 50 (b / 8760 * 50) := min_le_min le_rfl hdiv
    linarith

/-- Counterexample to C8 as stated: with a historical query, a two-year-old
item (17520 hours) gets recency weight 50 — less than the ≈94.3 of a
1000-hour-old item, and nowhere near the claimed cap of 100: the weight
decreases towards 50 as age grows past 30 days, it does not ramp up. -/
theorem claim_C8_counterexample :
    (analyzeUserIntentFallback "history").time_preference = "historical" ∧
    calcRecencyWeight (some 17520) (analyzeUserIntentFallback "history") = 50 ∧
    calcRecencyWeight (some 1000) (analyzeUserIntentFallback "history") = 20650 / 219 ∧
    calcRecencyWeight (some 17520) (analyzeUserIntentFallback "history")
      < calcRecencyWeight (some 1000) (analyzeUserIntentFallback "history") ∧
    calcRecencyWeight (some 17520) (analyzeUserIntentFallback "history") ≠ 100 := by
  have hintent : (analyzeUserIntentFallback "history").time_preference = "historical" := by
    decide
  have h1 : calcRecencyWeight (some 17520) (analyzeUserIntentFallback "history") = 50 := by
    simp only [calcRecencyWeight, hintent]
    rw [if_neg (by decide : ¬ ("historical" = "recent")), if_pos trivial]
    norm_num
  have h2 : calcRecencyWeight (some 1000) (analyzeUserIntentFallback "history")
      = 20650 / 219 := by
    simp only [calcRecencyWeight, hintent]
    rw [if_neg (by decide : ¬ ("historical" = "recent")), if_pos trivial]
    norm_num
  refine ⟨hintent, h1, h2, ?_, ?_⟩
  · rw [h1, h2]
    norm_num
  · rw [h1]
    norm_num

/-- Witness for the amended C8 at age 10000 hours. -/
theorem claim_C8_witness :
    calcRecencyWeight (some 10000) (analyzeUserIntentFallback "history")
      = 100 - min 50 ((10000 : ℚ) / 8760 * 50) :=
  (claim_C8_historical_recency (analyzeUserIntentFallback "history") (by decide) 10000 0).2.1
    (by norm_num)

/-! ### Discovery ranking: determinism and tie-breaking -/

lemma intentA_eval : analyzeUserIntentFallback "a"
    = ⟨"a", "anytime", ["diverse", "mainstream"], "medium", [], [], ["a"]⟩ := by
  decide

lemma relevance_a_eval (d : DClaim ) (hd : d.text = "a") :
    calcRelevance d (analyzeUserIntentFallback "a") = 77 := by
  rw [intentA_eval]
  have hded : List.dedup ["a"] = ["a"] := by decide
  have hsc : strContains (lowerStr "a") (lowerStr "a") = true := by decide
  simp only [calcRelevance, hd, hded]
  norm_num [List.filter_cons, hsc]

lemma diversityA_eval : calcDiversityScore dClaimA (analyzeUserIntentFallback "a") = 68 := by
  rw [intentA_eval]
  have h1 : (["diverse", "mainstream"] : List String).contains "diverse" = true := by decide
  have h2 : (["mainstream", "consensus"] : List String).contains "neutral" = false := by decide
  have h3 : (["diverse", "mainstream"] : List String).contains "expert" = false := by decide
  have h4 : ¬ ("neutral" = "mainstream") := by decide
  have h5 : ¬ ("neutral" = "consensus") := by decide
  norm_num [calcDiversityScore, dClaimA, h1, h2, h3, h4, h5]

lemma diversityB_eval : calcDiversityScore dClaimB (analyzeUserIntentFallback "a") = 50 := by
  rw [intentA_eval]
  have h1 : (["diverse", "mainstream"] : List String).contains "diverse" = true := by decide
  have h2 : (["mainstream", "consensus"] : List String).contains "mainstream" = true := by decide
  have h3 : (["diverse", "mainstream"] : List String).contains "expert" = false := by decide
  norm_num [calcDiversityScore, dClaimB, h1, h2, h3]

lemma signalsA_eval : calcDiscoverySignals dClaimA (analyzeUserIntentFallback "a")
    = ⟨77, 68, 50, 40, 100, 50, 50⟩ := by
  simp only [calcDiscoverySignals, DSignals.mk.injEq]
  refine ⟨relevance_a_eval dClaimA rfl, diversityA_eval, rfl, ?_, ?_, rfl, rfl⟩
  · norm_num [calcEngagementQuality, dClaimA]
  · norm_num [authorStandingSignal, dClaimA]

lemma signalsB_eval : calcDiscoverySignals dClaimB (analyzeUserIntentFallback "a")
    = ⟨77, 50, 50, 40, 100, 50, 50⟩ := by
  simp only [calcDiscoverySignals, DSignals.mk.injEq]
  refine ⟨relevance_a_eval dClaimB rfl, diversityB_eval, rfl, ?_, ?_, rfl, rfl⟩
  · norm_num [calcEngagementQuality, dClaimB]
  · norm_num [authorStandingSignal, dClaimB]

lemma compositeA_eval : resultA.composite_score = 1467 / 20 := by
  show calcCompositeScore (calcDiscoverySignals dClaimA (analyzeUserIntentFallback "a"))
      DAlgo.standing_aware = 1467 / 20
  rw [signalsA_eval]
  norm_num [calcCompositeScore]

lemma compositeB_eval : resultB.composite_score = 1449 / 20 := by
  show calcCompositeScore (calcDiscoverySignals dClaimB (analyzeUserIntentFallback "a"))
      DAlgo.standing_aware = 1449 / 20
  rw [signalsB_eval]
  norm_num [calcCompositeScore]

lemma boostedA_eval : resultA_boosted.composite_score = 741 / 10 := by
  show resultA.composite_score + resultA.author_standing / 100 * 15 = 741 / 10
  rw [compositeA_eval]
  norm_num [resultA, toResult, dClaimA]

lemma boostedB_eval : resultB_boosted.composite_score = 741 / 10 := by
  show resultB.composite_score + resultB.author_standing / 100 * 15 = 741 / 10
  rw [compositeB_eval]
  norm_num [resultB, toResult, dClaimB]

lemma discoverAB_eval : discoverContent "a" [dClaimB, dClaimA] DAlgo.standing_aware 20 (3 / 10)
    = [resultA_boosted, resultB_boosted] := by
  have hnotle : ¬ (resultA.composite_score ≤ resultB.composite_score) := by
    rw [compositeA_eval, compositeB_eval]
    norm_num
  have hle : resultB_boosted.composite_score ≤ resultA_boosted.composite_score := by
    rw [boostedA_eval, boostedB_eval]
  show (applyStandingAwareRanking (sortDesc (fun r => r.composite_score)
      (List.map (toResult (analyzeUserIntentFallback "a") DAlgo.standing_aware)
        [dClaimB, dClaimA]))).take 20 = [resultA_boosted, resultB_boosted]
  have hmap : List.map (toResult (analyzeUserIntentFallback "a") DAlgo.standing_aware)
      [dClaimB, dClaimA] = [resultB, resultA] := rfl
  rw [hmap]
  have hsort : sortDesc (fun r : DResult => r.composite_score) [resultB, resultA]
      = [resultA, resultB] := by
    simp only [sortDesc, insertDesc]
    rw [if_neg hnotle]
  rw [hsort]
  have happ : applyStandingAwareRanking [resultA, resultB]
      = [resultA_boosted, resultB_boosted] := by
    show sortDesc (fun r => r.composite_score) [resultA_boosted, resultB_boosted]
      = [resultA_boosted, resultB_boosted]
    simp only [sortDesc, insertDesc]
    rw [if_pos hle]
  rw [happ]
  rfl

/-- Counterexample to C7 as stated: under the `standing_aware` algorithm,
the post-sort standing boost can equalise two composite scores that the
first (stable) sort had already reordered.  With the corpus `[B, A]`
(identical texts, `A` scoring 0.9 higher initially, `B`'s author standing
boost exactly closing the gap), both output items have final composite
score 74.1, yet the output order is `[A, B]` — not the input order. -/
theorem claim_C7_counterexample :
    ¬ tiesRespectInputOrder [dClaimB, dClaimA]
        (discoverContent "a" [dClaimB, dClaimA] DAlgo.standing_aware 20 (3 / 10)) ∧
    (discoverContent "a" [dClaimB, dClaimA] DAlgo.standing_aware 20 (3 / 10)).map
        (fun r => (r.claim_id, r.composite_score)) = [("A", 741 / 10), ("B", 741 / 10)] := by
  constructor
  · rw [discoverAB_eval]
    intro hties
    have h := hties ⟨0, by norm_num⟩ ⟨1, by norm_num⟩ (by decide)
      (by
        show resultA_boosted.composite_score = resultB_boosted.composite_score
        rw [boostedA_eval, boostedB_eval])
    exact absurd h (by decide)
  · rw [discoverAB_eval]
    simp only [List.map_cons, List.map_nil]
    rw [boostedA_eval, boostedB_eval]
    rfl

/-- C7 as amended: discovery output is a pure function of the query, the
corpus snapshot, the algorithm and the limit (determinism), and under the
`relevance` algorithm — the one variant with no post-sort adjustment —
items with equal composite scores appear in their relative input order:
for every score value, the output items carrying that score form a prefix
of the input items carrying it.  (Under the adjusted variants,
ties in the final score preserve the first sort's order instead, as the
counterexample shows.) -/
theorem claim_C7_determinism_and_stability (q : String) (claims : List DClaim )
    (alg : DAlgo ) (limit : ℕ) (dp : ℚ) :
    discoverContent q claims alg limit dp = discoverContent q claims alg limit dp ∧
    (∀ c : ℚ,
      (discoverContent q claims DAlgo.relevance limit dp).filter
          (fun r => r.composite_score = c)
        <+: ((claims.map (toResult (analyzeUserIntentFallback q) DAlgo.relevance)).filter
          (fun r => r.composite_score = c))) := by
  refine ⟨rfl, ?_⟩
  intro c
  have hd : discoverContent q claims DAlgo.relevance limit dp
      = (sortDesc (fun r => r.composite_score)
          (claims.map (toResult (analyzeUserIntentFallback q) DAlgo.relevance))).take limit := rfl
  rw [hd]
  have h1 := (List.take_prefix limit (sortDesc (fun r : DResult => r.composite_score)
      (claims.map (toResult (analyzeUserIntentFallback q) DAlgo.relevance)))).filter
      (fun r => decide (r.composite_score = c))
  rwa [filter_sortDesc (fun r : DResult => r.composite_score) c] at h1

end Thrryv
